import Mathlib

/-!
Verification of the airport simulation program (src/src/main.rs).

The program is a tokio-based pipeline: a generator emits planes onto a
bounded arrival channel, a dispatcher spawns one service task per plane,
each service task runs an admit / land / rest / takeoff state machine
against two counting semaphores (runways and hangars), and the main task
collects completed planes from a departures channel and prints a report.

Durations are modelled in milliseconds as natural numbers (the Rust code
measures service times with Instant::elapsed().as_millis()); monotonic
instants are likewise natural numbers.
-/

namespace Airport

/-- Run configuration constant TOTAL_PLANES from main. -/
def TOTAL_PLANES : Nat := 10

/-- Run configuration constant QTY_RUNWAYS from main. -/
def QTY_RUNWAYS : Nat := 1

/-- Run configuration constant QTY_HANGARS from main. -/
def QTY_HANGARS : Nat := 3

/-- The Plane struct: two durations (milliseconds) and a creation instant. -/
structure Plane where
  time_to_land : Nat
  time_to_rest : Nat
  created_at : Nat
deriving DecidableEq, Repr

/-- Plane::new: time_to_land = 1 s = 1000 ms, time_to_rest = 2 s = 2000 ms,
created_at = the current instant, passed in explicitly. -/
def Plane.new (now : Nat) : Plane :=
  { time_to_land := 1000, time_to_rest := 2000, created_at := now }

/-- The Default impl for Plane delegates to Plane::new. -/
def Plane.mkDefault (now : Nat) : Plane :=
  Plane.new now

/-- Result of the generator loop. The Rust loop, per iteration, awaits a
tick and then calls sender.try_send(Plane::default()); if that returns Err
(channel full) the generator panics with the message below, otherwise it
continues. The argument list gives, for each of the N iterations, whether
the arrival channel is full at that tick; the result is the number of
planes sent, or the panic message. -/
def plane_generator : List Bool → Except String Nat
  | [] => Except.ok 0
  | full :: rest =>
      if full then
        Except.error "Plane is gone! This should never happen"
      else
        match plane_generator rest with
        | Except.ok n => Except.ok (n + 1)
        | Except.error e => Except.error e

/-- The sequence of Plane values the generator constructs, one per tick:
every plane is built by Plane::default() at the instant of its tick. -/
def generatorPlanes (tickTimes : List Nat) : List Plane :=
  tickTimes.map Plane.mkDefault

/-- Rust u128 division as used by Div::div in main: division by zero is a
panic, modelled as an error value. -/
def u128_div (a b : Nat) : Except String Nat :=
  if b = 0 then Except.error "attempt to divide by zero" else Except.ok (a / b)

/-- The final report printed by main, as data: accepted count, denied
count and average service time. -/
structure Report where
  qty_accepted_planes : Nat
  qty_denied_planes : Nat
  avg_service_time : Nat
deriving DecidableEq, Repr

/-- The tail of main: given the collected service_times list (one entry
per plane received from the departures channel), compute the report.
qty_accepted_planes = service_times.len(); denied = TOTAL_PLANES - accepted;
the average is sum / accepted via u128 division, which panics (errors)
when the accepted count is zero. -/
def mainReport (total_planes : Nat) (service_times : List Nat) : Except String Report :=
  let qty_accepted_planes := service_times.length
  match u128_div service_times.sum qty_accepted_planes with
  | Except.error e => Except.error e
  | Except.ok avg =>
      Except.ok
        { qty_accepted_planes := qty_accepted_planes
          qty_denied_planes := total_planes - qty_accepted_planes
          avg_service_time := avg }

/-- Observable events of one service task (plane_receiver), in program
order. tryRunway b and tryHangar b record a non-blocking try_acquire and
its outcome; acquireRunway records the blocking acquire in the
awaiting-runway phase; dropRunway and dropHangar record permit releases
(explicit drop or drop at return); sleep d records a timed sleep of d
milliseconds; send records the send on the departures channel. -/
inductive Ev where
  | tryRunway (ok : Bool)
  | tryHangar (ok : Bool)
  | sleep (d : Nat)
  | dropRunway
  | dropHangar
  | acquireRunway
  | send
deriving DecidableEq, Repr

/-- The event trace of plane_receiver, given the outcomes of the two
non-blocking try_acquire calls. If the runway try_acquire fails the task
prints and returns at once (the Err permit releases nothing). If the
hangar try_acquire fails the task returns, and the runway permit held in
the local is dropped at that return. Otherwise the task sleeps
time_to_land, drops the runway permit, sleeps time_to_rest, blocks to
re-acquire a runway permit, drops the hangar permit, sleeps time_to_land,
drops the runway permit, and sends the plane on the departures channel. -/
def plane_receiver (runwayOk hangarOk : Bool) (plane : Plane) : List Ev :=
  if runwayOk = false then
    [Ev.tryRunway false]
  else if hangarOk = false then
    [Ev.tryRunway true, Ev.tryHangar false, Ev.dropRunway]
  else
    [Ev.tryRunway true, Ev.tryHangar true,
     Ev.sleep plane.time_to_land, Ev.dropRunway,
     Ev.sleep plane.time_to_rest, Ev.acquireRunway, Ev.dropHangar,
     Ev.sleep plane.time_to_land, Ev.dropRunway, Ev.send]

/-- Net effect of one event on the number of runway permits the task
holds: +1 for a successful acquisition, -1 for a release. -/
def Ev.runwayDelta : Ev → Int
  | Ev.tryRunway true => 1
  | Ev.acquireRunway => 1
  | Ev.dropRunway => -1
  | _ => 0

/-- Net effect of one event on the number of hangar permits the task
holds. -/
def Ev.hangarDelta : Ev → Int
  | Ev.tryHangar true => 1
  | Ev.dropHangar => -1
  | _ => 0

/-- Number of runway permits a task holds after executing a trace. -/
def netRunway (tr : List Ev) : Int :=
  (tr.map Ev.runwayDelta).sum

/-- Number of hangar permits a task holds after executing a trace. -/
def netHangar (tr : List Ev) : Int :=
  (tr.map Ev.hangarDelta).sum

/-- The available-permit count of the hangar semaphore after a task
executes a trace, starting from a given available count. -/
def applyHangarEvents (avail : Nat) : List Ev → Nat
  | [] => avail
  | Ev.tryHangar true :: tr => applyHangarEvents (avail - 1) tr
  | Ev.dropHangar :: tr => applyHangarEvents (avail + 1) tr
  | _ :: tr => applyHangarEvents avail tr

/-- Wall-clock time a trace takes: each sleep takes its duration, the
blocking acquire takes the next wait drawn from the waits list (how long
the runway semaphore made this task wait), every other event is
instantaneous. -/
def traceElapsed : List Ev → List Nat → Nat
  | [], _ => 0
  | Ev.sleep d :: tr, ws => d + traceElapsed tr ws
  | Ev.acquireRunway :: tr, w :: ws => w + traceElapsed tr ws
  | Ev.acquireRunway :: tr, [] => traceElapsed tr []
  | _ :: tr, ws => traceElapsed tr ws

/-- C1 counterexample: in a two-tick run whose first tick finds the
arrival channel full, the generator does not drop the plane and continue
to make both attempts; it panics, so the run aborts and a full arrival
channel is fatal — contradicting the claim. -/
theorem C1_generator_full_channel_counterexample :
    plane_generator [true, false] =
      Except.error "Plane is gone! This should never happen" := by
  rfl

/-- C1 (amended): whenever any enqueue attempt of the generator finds the
arrival channel full, the generator panics with the message
"Plane is gone! This should never happen" and the run aborts; it never
drops the plane and continues. -/
theorem C1_generator_panics_on_full_channel (fullAt : List Bool)
    (h : true ∈ fullAt) :
    plane_generator fullAt =
      Except.error "Plane is gone! This should never happen" := by
  induction fullAt with
  | nil => cases h
  | cons b rest ih =>
      cases b with
      | true => rfl
      | false =>
          have hrest : true ∈ rest := by
            cases h with
            | tail _ h2 => exact h2
          simp only [plane_generator, if_neg (by decide : ¬ (false = true))]
          rw [ih hrest]

/-- C1 witness for the amended theorem at a concrete run. -/
theorem C1_generator_panics_on_full_channel_witness :
    plane_generator [false, true, false] =
      Except.error "Plane is gone! This should never happen" :=
  C1_generator_panics_on_full_channel [false, true, false] (by decide)

/-- C2: the division by qty_accepted_planes in main is not guarded
against zero. On a run in which no plane is accepted (service_times is
empty, e.g. QTY_HANGARS = 0), main computes sum / 0 on u128 values, which
panics with "attempt to divide by zero" instead of reporting the average
as n/a. -/
theorem C2_report_divides_by_zero_when_no_plane_accepted :
    mainReport TOTAL_PLANES [] = Except.error "attempt to divide by zero" := by
  rfl

/-- C10: every plane the generator ever constructs is built by
Plane::default() = Plane::new(), so it has time_to_land = 1 s (1000 ms),
time_to_rest = 2 s (2000 ms), and created_at equal to the instant of the
tick at which it was constructed; the durations cannot vary per run. -/
theorem C10_all_planes_have_default_timings (tickTimes : List Nat) (p : Plane)
    (hp : p ∈ generatorPlanes tickTimes) :
    p.time_to_land = 1000 ∧ p.time_to_rest = 2000 ∧ p.created_at ∈ tickTimes := by
  rcases List.mem_map.mp hp with ⟨t, ht, rfl⟩
  exact ⟨rfl, rfl, ht⟩

/-- C10 witness: the plane constructed at tick instant 7. -/
theorem C10_all_planes_have_default_timings_witness :
    (Plane.mkDefault 7).time_to_land = 1000 ∧
      (Plane.mkDefault 7).time_to_rest = 2000 ∧
      (Plane.mkDefault 7).created_at ∈ [7] :=
  C10_all_planes_have_default_timings [7] (Plane.mkDefault 7) (by decide)

/-- Whether an event is part of the post-admission work of a task:
a timed sleep, the blocking runway re-acquire, or the completion send. -/
def isWork : Ev → Bool
  | Ev.sleep _ => true
  | Ev.acquireRunway => true
  | Ev.send => true
  | _ => false

/-- C4: the ADMIT step probes runway then hangar with non-blocking
try_acquire; on either failure the task returns at once: its trace is one
of the two denial traces (runway probed first), it ends holding no runway
and no hangar permit (the runway permit taken before a failed hangar
check is dropped immediately, as the very next event), and it performs no
further work: no sleep, no blocking acquire, no send. -/
theorem C4_admit_denied_releases_and_stops (runwayOk hangarOk : Bool) (p : Plane)
    (hdeny : runwayOk = false ∨ hangarOk = false) :
    (plane_receiver runwayOk hangarOk p = [Ev.tryRunway false] ∨
      plane_receiver runwayOk hangarOk p =
        [Ev.tryRunway true, Ev.tryHangar false, Ev.dropRunway]) ∧
    netRunway (plane_receiver runwayOk hangarOk p) = 0 ∧
    netHangar (plane_receiver runwayOk hangarOk p) = 0 ∧
    (plane_receiver runwayOk hangarOk p).any isWork = false := by
  cases runwayOk <;> cases hangarOk <;>
    simp_all [plane_receiver, netRunway, netHangar, Ev.runwayDelta, Ev.hangarDelta,
      isWork]

/-- C4 witness: a plane denied at the runway check. -/
theorem C4_admit_denied_releases_and_stops_witness :
    (plane_receiver false true (Plane.new 0) = [Ev.tryRunway false] ∨
      plane_receiver false true (Plane.new 0) =
        [Ev.tryRunway true, Ev.tryHangar false, Ev.dropRunway]) ∧
    netRunway (plane_receiver false true (Plane.new 0)) = 0 ∧
    netHangar (plane_receiver false true (Plane.new 0)) = 0 ∧
    (plane_receiver false true (Plane.new 0)).any isWork = false :=
  C4_admit_denied_releases_and_stops false true (Plane.new 0) (Or.inl rfl)

/-- C5: in the accepted trace the runway permit is released (event 3)
before the rest sleep begins (event 4), so after the first four events —
i.e. throughout RESTING — the task holds zero runway permits; the runway
is then re-acquired by the blocking acquire (event 5, an acquireRunway
event, not a try-acquire: no tryRunway event occurs after admission)
strictly before the hangar permit is released (event 6), so after the
first six events — at the moment the hangar is released — the task
already holds one runway permit. -/
theorem C5_release_before_rest_reacquire_before_hangar_release (p : Plane) :
    netRunway ((plane_receiver true true p).take 4) = 0 ∧
    (plane_receiver true true p)[4]? = some (Ev.sleep p.time_to_rest) ∧
    (plane_receiver true true p)[5]? = some Ev.acquireRunway ∧
    (plane_receiver true true p)[6]? = some Ev.dropHangar ∧
    netRunway ((plane_receiver true true p).take 6) = 1 ∧
    Ev.tryRunway true ∉ (plane_receiver true true p).drop 2 ∧
    Ev.tryRunway false ∉ (plane_receiver true true p).drop 2 := by
  simp [plane_receiver, netRunway, Ev.runwayDelta]

/-- C7: every accepted plane (both ADMIT checks succeeded) runs the one
straight-line post-admission path, whose trace ends with the send on the
departures channel, and at its end the task holds no runway and no hangar
permit: every acquired permit was released. -/
theorem C7_accepted_always_sent_with_permits_released (p : Plane) :
    (plane_receiver true true p).getLast? = some Ev.send ∧
    netRunway (plane_receiver true true p) = 0 ∧
    netHangar (plane_receiver true true p) = 0 := by
  simp [plane_receiver, netRunway, netHangar, Ev.runwayDelta, Ev.hangarDelta]

/-- C9: a plane denied at the first ADMIT check (no runway available)
produces the trace [tryRunway false]: the hangar semaphore is never
probed, acquired from, or released to — so the available-hangar count
after the task equals the count before it ran. -/
theorem C9_runway_denial_leaves_hangars_untouched (hangarOk : Bool) (p : Plane)
    (avail : Nat) :
    plane_receiver false hangarOk p = [Ev.tryRunway false] ∧
    applyHangarEvents avail (plane_receiver false hangarOk p) = avail ∧
    netHangar (plane_receiver false hangarOk p) = 0 ∧
    Ev.tryHangar true ∉ plane_receiver false hangarOk p ∧
    Ev.tryHangar false ∉ plane_receiver false hangarOk p ∧
    Ev.dropHangar ∉ plane_receiver false hangarOk p := by
  simp [plane_receiver, applyHangarEvents, netHangar, Ev.hangarDelta]

/-- C8: the accepted trace spends at least time_to_land + time_to_rest +
time_to_land of wall-clock time (two landing-length sleeps, one rest
sleep, plus a nonnegative wait in the blocking acquire), so if the task
starts no earlier than the plane was created and the collector receives
the plane no earlier than the trace completes, the service time the
collector measures (receive instant minus created_at) is at least
2 * time_to_land + time_to_rest. -/
theorem C8_service_time_at_least_two_lands_plus_rest (p : Plane)
    (waits : List Nat) (startTime recvTime : Nat)
    (hstart : p.created_at ≤ startTime)
    (hrecv : startTime + traceElapsed (plane_receiver true true p) waits ≤ recvTime) :
    2 * p.time_to_land + p.time_to_rest ≤ recvTime - p.created_at := by
  have helapsed :
      p.time_to_land + p.time_to_rest + p.time_to_land ≤
        traceElapsed (plane_receiver true true p) waits := by
    cases waits <;> simp [plane_receiver, traceElapsed] <;> omega
  omega

/-- C8 witness: the default plane created at instant 0, handled with no
acquire wait and received exactly when its trace completes. -/
theorem C8_service_time_at_least_two_lands_plus_rest_witness :
    2 * (Plane.new 0).time_to_land + (Plane.new 0).time_to_rest ≤
      4000 - (Plane.new 0).created_at :=
  C8_service_time_at_least_two_lands_plus_rest (Plane.new 0) [] 0 4000
    (by decide) (by decide)

/-- Program counter of one service task, between the suspension and
semaphore points of plane_receiver. gotRunway is the point between the
two try_acquire calls; landing, resting and takeoff are the three sleeps;
awaiting is the blocking runway acquire after resting; gotRunway2 is the
point between that acquire succeeding and the hangar drop; sending is the
point after the final runway drop; denied and done are the exits. -/
inductive TaskPC where
  | start
  | gotRunway
  | landing
  | resting
  | awaiting
  | gotRunway2
  | takeoff
  | sending
  | denied
  | done
deriving DecidableEq, Repr

/-- Number of runway permits a task at a given program point holds:
one from the successful try_acquire until the drop after landing, and one
from the blocking re-acquire until the drop after takeoff. -/
def TaskPC.runwayHeld : TaskPC → Nat
  | TaskPC.gotRunway => 1
  | TaskPC.landing => 1
  | TaskPC.gotRunway2 => 1
  | TaskPC.takeoff => 1
  | _ => 0

/-- Number of hangar permits a task at a given program point holds: one
from the successful try_acquire until the drop after the runway
re-acquire. -/
def TaskPC.hangarHeld : TaskPC → Nat
  | TaskPC.landing => 1
  | TaskPC.resting => 1
  | TaskPC.awaiting => 1
  | TaskPC.gotRunway2 => 1
  | _ => 0

/-- Global state of a run: the available counts of the two semaphores,
the multiset of program counters of the spawned service tasks, and the
number of planes sent on the departures (completion) channel. -/
structure AirportState where
  availRunways : Nat
  availHangars : Nat
  tasks : Multiset TaskPC
  completed : Nat
deriving DecidableEq

/-- Initial state of main: Semaphore::new(QTY_RUNWAYS),
Semaphore::new(QTY_HANGARS), no tasks spawned, empty departures
channel. -/
def initialState (runways hangars : Nat) : AirportState :=
  { availRunways := runways, availHangars := hangars, tasks := 0, completed := 0 }

/-- Total number of live (acquired and not yet released) runway permits
across all tasks. -/
def liveRunways (s : AirportState) : Nat :=
  (s.tasks.map TaskPC.runwayHeld).sum

/-- Total number of live hangar permits across all tasks. -/
def liveHangars (s : AirportState) : Nat :=
  (s.tasks.map TaskPC.hangarHeld).sum

/-- Interleaved small-step semantics of the run: the dispatcher spawns at
most total tasks (one per plane received from the bounded generator), and
each task steps through plane_receiver. try_acquire succeeds exactly when
a permit is available and fails (denying the plane) exactly when none is;
dropping a permit returns it to its semaphore; the blocking acquire
proceeds only when a permit is available; the final send increments the
departures-channel count. -/
inductive Step (total : Nat) : AirportState → AirportState → Prop where
  | spawn (s : AirportState) (hcard : Multiset.card s.tasks < total) :
      Step total s { s with tasks := TaskPC.start ::ₘ s.tasks }
  | admitRunwayOk (s : AirportState) (t : Nat)
      (hmem : TaskPC.start ∈ s.tasks) (hr : s.availRunways = t + 1) :
      Step total s
        { availRunways := t, availHangars := s.availHangars,
          tasks := TaskPC.gotRunway ::ₘ s.tasks.erase TaskPC.start,
          completed := s.completed }
  | admitRunwayFail (s : AirportState)
      (hmem : TaskPC.start ∈ s.tasks) (hr : s.availRunways = 0) :
      Step total s
        { availRunways := 0, availHangars := s.availHangars,
          tasks := TaskPC.denied ::ₘ s.tasks.erase TaskPC.start,
          completed := s.completed }
  | admitHangarOk (s : AirportState) (t : Nat)
      (hmem : TaskPC.gotRunway ∈ s.tasks) (hh : s.availHangars = t + 1) :
      Step total s
        { availRunways := s.availRunways, availHangars := t,
          tasks := TaskPC.landing ::ₘ s.tasks.erase TaskPC.gotRunway,
          completed := s.completed }
  | admitHangarFail (s : AirportState)
      (hmem : TaskPC.gotRunway ∈ s.tasks) (hh : s.availHangars = 0) :
      Step total s
        { availRunways := s.availRunways + 1, availHangars := 0,
          tasks := TaskPC.denied ::ₘ s.tasks.erase TaskPC.gotRunway,
          completed := s.completed }
  | finishLanding (s : AirportState) (hmem : TaskPC.landing ∈ s.tasks) :
      Step total s
        { availRunways := s.availRunways + 1, availHangars := s.availHangars,
          tasks := TaskPC.resting ::ₘ s.tasks.erase TaskPC.landing,
          completed := s.completed }
  | finishResting (s : AirportState) (hmem : TaskPC.resting ∈ s.tasks) :
      Step total s
        { availRunways := s.availRunways, availHangars := s.availHangars,
          tasks := TaskPC.awaiting ::ₘ s.tasks.erase TaskPC.resting,
          completed := s.completed }
  | acquireRunwayBlocking (s : AirportState) (t : Nat)
      (hmem : TaskPC.awaiting ∈ s.tasks) (hr : s.availRunways = t + 1) :
      Step total s
        { availRunways := t, availHangars := s.availHangars,
          tasks := TaskPC.gotRunway2 ::ₘ s.tasks.erase TaskPC.awaiting,
          completed := s.completed }
  | releaseHangar (s : AirportState) (hmem : TaskPC.gotRunway2 ∈ s.tasks) :
      Step total s
        { availRunways := s.availRunways, availHangars := s.availHangars + 1,
          tasks := TaskPC.takeoff ::ₘ s.tasks.erase TaskPC.gotRunway2,
          completed := s.completed }
  | finishTakeoff (s : AirportState) (hmem : TaskPC.takeoff ∈ s.tasks) :
      Step total s
        { availRunways := s.availRunways + 1, availHangars := s.availHangars,
          tasks := TaskPC.sending ::ₘ s.tasks.erase TaskPC.takeoff,
          completed := s.completed }
  | sendDone (s : AirportState) (hmem : TaskPC.sending ∈ s.tasks) :
      Step total s
        { availRunways := s.availRunways, availHangars := s.availHangars,
          tasks := TaskPC.done ::ₘ s.tasks.erase TaskPC.sending,
          completed := s.completed + 1 }

/-- A state is reachable when some interleaving of dispatcher and task
steps leads to it from the initial state. -/
def Reachable (runways hangars total : Nat) (s : AirportState) : Prop :=
  Relation.ReflTransGen (Step total) (initialState runways hangars) s

/-- The run invariant: each semaphore's available count plus the live
permits drawn from it equals its capacity, the departures-channel count
equals the number of tasks that have finished, and at most total tasks
exist. -/
def Inv (runways hangars total : Nat) (s : AirportState) : Prop :=
  s.availRunways + liveRunways s = runways ∧
  s.availHangars + liveHangars s = hangars ∧
  s.completed = Multiset.count TaskPC.done s.tasks ∧
  Multiset.card s.tasks ≤ total

/-- Splitting a permit-count sum at a member of the task multiset. -/
theorem sum_map_eq_of_mem (f : TaskPC → Nat) (tasks : Multiset TaskPC)
    (pc : TaskPC) (h : pc ∈ tasks) :
    (tasks.map f).sum = f pc + ((tasks.erase pc).map f).sum := by
  conv_lhs => rw [← Multiset.cons_erase h]
  simp

/-- Effect on a permit-count sum of one task moving from oldpc to
newpc. -/
theorem live_update (f : TaskPC → Nat) (tasks : Multiset TaskPC)
    (oldpc newpc : TaskPC) (h : oldpc ∈ tasks) :
    ((newpc ::ₘ tasks.erase oldpc).map f).sum + f oldpc
      = (tasks.map f).sum + f newpc := by
  rw [Multiset.map_cons, Multiset.sum_cons, sum_map_eq_of_mem f tasks oldpc h]
  omega

/-- Effect on the finished-task count of one task moving from oldpc to
newpc, when oldpc is not the finished state. -/
theorem count_done_update (tasks : Multiset TaskPC) (oldpc newpc : TaskPC)
    (hold : oldpc ≠ TaskPC.done) :
    Multiset.count TaskPC.done (newpc ::ₘ tasks.erase oldpc)
      = Multiset.count TaskPC.done tasks
          + (if TaskPC.done = newpc then 1 else 0) := by
  rw [Multiset.count_cons, Multiset.count_erase_of_ne (Ne.symm hold)]

/-- One task moving from oldpc to newpc leaves the task count
unchanged. -/
theorem card_update (tasks : Multiset TaskPC) (oldpc newpc : TaskPC)
    (h : oldpc ∈ tasks) :
    Multiset.card (newpc ::ₘ tasks.erase oldpc) = Multiset.card tasks := by
  rw [Multiset.card_cons, Multiset.card_erase_of_mem h, Nat.pred_eq_sub_one]
  have hpos : 0 < Multiset.card tasks :=
    Multiset.card_pos_iff_exists_mem.mpr ⟨oldpc, h⟩
  omega

/-- The invariant is preserved by any step that moves one task from
oldpc to newpc and adjusts the semaphores and the channel consistently
with the permits held at the two program points. -/
theorem inv_step_update (runways hangars total : Nat) (s : AirportState)
    (oldpc newpc : TaskPC) (aR aH c : Nat)
    (hmem : oldpc ∈ s.tasks) (hold : oldpc ≠ TaskPC.done)
    (hR : aR + TaskPC.runwayHeld newpc = s.availRunways + TaskPC.runwayHeld oldpc)
    (hH : aH + TaskPC.hangarHeld newpc = s.availHangars + TaskPC.hangarHeld oldpc)
    (hc : c = s.completed + (if TaskPC.done = newpc then 1 else 0))
    (hinv : Inv runways hangars total s) :
    Inv runways hangars total
      { availRunways := aR, availHangars := aH,
        tasks := newpc ::ₘ s.tasks.erase oldpc, completed := c } := by
  obtain ⟨h1, h2, h3, h4⟩ := hinv
  have hR2 := live_update TaskPC.runwayHeld s.tasks oldpc newpc hmem
  have hH2 := live_update TaskPC.hangarHeld s.tasks oldpc newpc hmem
  have hcnt := count_done_update s.tasks oldpc newpc hold
  have hcard2 := card_update s.tasks oldpc newpc hmem
  unfold liveRunways at h1
  unfold liveHangars at h2
  unfold Inv liveRunways liveHangars
  dsimp only
  refine ⟨by omega, by omega, ?_, by omega⟩
  rw [hcnt, hc, h3]

/-- The invariant is preserved by spawning a fresh task. -/
theorem inv_spawn (runways hangars total : Nat) (s : AirportState)
    (hcard : Multiset.card s.tasks < total)
    (hinv : Inv runways hangars total s) :
    Inv runways hangars total { s with tasks := TaskPC.start ::ₘ s.tasks } := by
  obtain ⟨h1, h2, h3, h4⟩ := hinv
  unfold liveRunways at h1
  unfold liveHangars at h2
  unfold Inv liveRunways liveHangars
  dsimp only
  refine ⟨?_, ?_, ?_, ?_⟩
  · rw [Multiset.map_cons, Multiset.sum_cons]
    simpa [TaskPC.runwayHeld] using h1
  · rw [Multiset.map_cons, Multiset.sum_cons]
    simpa [TaskPC.hangarHeld] using h2
  · rw [Multiset.count_cons]
    simpa using h3
  · rw [Multiset.card_cons]
    omega

/-- The invariant holds initially. -/
theorem inv_init (runways hangars total : Nat) :
    Inv runways hangars total (initialState runways hangars) := by
  refine ⟨?_, ?_, ?_, ?_⟩ <;>
    simp [initialState, liveRunways, liveHangars]

/-- The invariant is preserved by every step of the run. -/
theorem inv_preserved (runways hangars total : Nat)
    (s s2 : AirportState) (hstep : Step total s s2)
    (hinv : Inv runways hangars total s) :
    Inv runways hangars total s2 := by
  cases hstep with
  | spawn hcard => exact inv_spawn runways hangars total s hcard hinv
  | admitRunwayOk t hmem hr =>
      exact inv_step_update runways hangars total s TaskPC.start TaskPC.gotRunway
        _ _ _ hmem (by decide)
        (by simp [TaskPC.runwayHeld]; omega)
        (by simp [TaskPC.hangarHeld]) (by simp) hinv
  | admitRunwayFail hmem hr =>
      exact inv_step_update runways hangars total s TaskPC.start TaskPC.denied
        _ _ _ hmem (by decide)
        (by simp [TaskPC.runwayHeld]; omega)
        (by simp [TaskPC.hangarHeld]) (by simp) hinv
  | admitHangarOk t hmem hh =>
      exact inv_step_update runways hangars total s TaskPC.gotRunway TaskPC.landing
        _ _ _ hmem (by decide)
        (by simp [TaskPC.runwayHeld])
        (by simp [TaskPC.hangarHeld]; omega) (by simp) hinv
  | admitHangarFail hmem hh =>
      exact inv_step_update runways hangars total s TaskPC.gotRunway TaskPC.denied
        _ _ _ hmem (by decide)
        (by simp [TaskPC.runwayHeld])
        (by simp [TaskPC.hangarHeld]; omega) (by simp) hinv
  | finishLanding hmem =>
      exact inv_step_update runways hangars total s TaskPC.landing TaskPC.resting
        _ _ _ hmem (by decide)
        (by simp [TaskPC.runwayHeld])
        (by simp [TaskPC.hangarHeld]) (by simp) hinv
  | finishResting hmem =>
      exact inv_step_update runways hangars total s TaskPC.resting TaskPC.awaiting
        _ _ _ hmem (by decide)
        (by simp [TaskPC.runwayHeld])
        (by simp [TaskPC.hangarHeld]) (by simp) hinv
  | acquireRunwayBlocking t hmem hr =>
      exact inv_step_update runways hangars total s TaskPC.awaiting TaskPC.gotRunway2
        _ _ _ hmem (by decide)
        (by simp [TaskPC.runwayHeld]; omega)
        (by simp [TaskPC.hangarHeld]) (by simp) hinv
  | releaseHangar hmem =>
      exact inv_step_update runways hangars total s TaskPC.gotRunway2 TaskPC.takeoff
        _ _ _ hmem (by decide)
        (by simp [TaskPC.runwayHeld])
        (by simp [TaskPC.hangarHeld]) (by simp) hinv
  | finishTakeoff hmem =>
      exact inv_step_update runways hangars total s TaskPC.takeoff TaskPC.sending
        _ _ _ hmem (by decide)
        (by simp [TaskPC.runwayHeld])
        (by simp [TaskPC.hangarHeld]) (by simp) hinv
  | sendDone hmem =>
      exact inv_step_update runways hangars total s TaskPC.sending TaskPC.done
        _ _ _ hmem (by decide)
        (by simp [TaskPC.runwayHeld])
        (by simp [TaskPC.hangarHeld]) (by simp) hinv

/-- The invariant holds in every reachable state. -/
theorem inv_reachable (runways hangars total : Nat) (s : AirportState)
    (h : Reachable runways hangars total s) :
    Inv runways hangars total s := by
  induction h with
  | refl => exact inv_init runways hangars total
  | tail _ hstep ih => exact inv_preserved runways hangars total _ _ hstep ih

/-- The accepted count printed by main: the length of the service_times
vector, one entry per plane received from the departures channel. -/
def reportedAccepted (service_times : List Nat) : Nat :=
  service_times.length

/-- The denied count printed by main: TOTAL_PLANES minus the accepted
count. -/
def reportedDenied (total_planes : Nat) (service_times : List Nat) : Nat :=
  total_planes - service_times.length

/-- C6: in every reachable state of a run with capacities runways and
hangars, the number of live (acquired, not yet released) runway permits
is at most runways and the number of live hangar permits is at most
hangars; every task operation preserves this because each semaphore's
available count plus its live permits always equals its capacity. -/
theorem C6_live_permits_bounded (runways hangars total : Nat)
    (s : AirportState) (h : Reachable runways hangars total s) :
    liveRunways s ≤ runways ∧ liveHangars s ≤ hangars := by
  obtain ⟨h1, h2, -, -⟩ := inv_reachable runways hangars total s h
  omega

/-- C6 witness: the state of the reference run (R = 1, H = 3, N = 10)
after one task is spawned and its admit runway check succeeds. -/
theorem C6_live_permits_bounded_witness :
    liveRunways
        { availRunways := 0, availHangars := 3,
          tasks := TaskPC.gotRunway ::ₘ
            (TaskPC.start ::ₘ (0 : Multiset TaskPC)).erase TaskPC.start,
          completed := 0 } ≤ 1 ∧
      liveHangars
        { availRunways := 0, availHangars := 3,
          tasks := TaskPC.gotRunway ::ₘ
            (TaskPC.start ::ₘ (0 : Multiset TaskPC)).erase TaskPC.start,
          completed := 0 } ≤ 3 :=
  C6_live_permits_bounded 1 3 10 _
    (Relation.ReflTransGen.tail
      (Relation.ReflTransGen.single (Step.spawn (initialState 1 3) (by decide)))
      (Step.admitRunwayOk _ 0 (by decide) rfl))

/-- C3: in any run, at most total planes are ever sent on the departures
channel, so when the collector has received them all (one service_times
entry per received plane) the printed accepted count equals that number,
the printed denied count is total minus accepted, and accepted + denied
= total. -/
theorem C3_accepted_plus_denied_eq_total (runways hangars total : Nat)
    (s : AirportState) (hreach : Reachable runways hangars total s)
    (service_times : List Nat)
    (htimes : service_times.length = s.completed) :
    reportedAccepted service_times = s.completed ∧
    reportedDenied total service_times =
      total - reportedAccepted service_times ∧
    reportedAccepted service_times + reportedDenied total service_times
      = total := by
  obtain ⟨-, -, hcnt, hcard⟩ := inv_reachable runways hangars total s hreach
  have hle : s.completed ≤ Multiset.card s.tasks := by
    rw [hcnt]
    exact Multiset.count_le_card TaskPC.done s.tasks
  unfold reportedAccepted reportedDenied
  omega

/-- C3 witness: the initial state of the reference run with no plane yet
collected. -/
theorem C3_accepted_plus_denied_eq_total_witness :
    reportedAccepted [] = (initialState 1 3).completed ∧
    reportedDenied 10 [] = 10 - reportedAccepted [] ∧
    reportedAccepted [] + reportedDenied 10 [] = 10 :=
  C3_accepted_plus_denied_eq_total 1 3 10 (initialState 1 3)
    Relation.ReflTransGen.refl [] rfl

end Airport
